import Mathlib

/-! Messenger and Waypoint hash of the traffic manager

A shallow embedding of

* `carla/trafficmanager/Messenger.h`: the class template `Messenger<Data>`,
  a queue guarded by the flag `stop_messenger` and counted by `data_size`;
* `carla/road/element/Waypoint.cpp`: `std::hash<Waypoint>::operator()`.

The mutex only serialises the member functions, so every member function is
one atomic transition of the state below.  A call of `ReceiveData` that waits
on the condition variable is the outcome `blocked`.
-/

namespace carla
namespace traffic_manager

/-- Value that the `int64_t` counter takes after an arithmetic step whose exact
result is `z`: two-complement wrap-around into `[-2^63, 2^63)`. -/
def wrapInt64 (z : Int) : Int :=
  (z + 9223372036854775808) % 18446744073709551616 - 9223372036854775808

/-- State of a `Messenger<Data>`: the members `stop_messenger`, `data` (front of
the `std::queue` is the head of the list) and `data_size`.  The mutex and the
condition variable carry no data. -/
structure Messenger (Data : Type) where
  stop_messenger : Bool
  data : List Data
  data_size : Int
deriving DecidableEq, Repr

/-- Result of one call of `ReceiveData(Data *packet)`, seen by the caller:
* `returned m p`: the call returned, the messenger is `m`, the object that the
  caller passed the address of now holds `p`;
* `blocked`: the call is waiting in `condition_variable.wait`, the wait
  predicate `data_size > 0` being false;
* `undefinedFront`: the wait predicate held on an empty `std::queue`, so
  `data.front()` has no defined value. -/
inductive ReceiveResult (Data : Type) where
  | returned (m : Messenger Data) (p : Data)
  | blocked
  | undefinedFront
deriving DecidableEq, Repr

namespace Messenger

variable {Data : Type}

/-- Constructor `Messenger() : data_size(0) { stop_messenger.store(false); }`;
the `std::queue` member is default-constructed, so it is empty. -/
def new : Messenger Data :=
  { stop_messenger := false, data := [], data_size := 0 }

/-- Member `void SendData(Data packet)`: returns at once when
`!stop_messenger.load()`, otherwise pushes the packet at the back of the queue
and increments `data_size`. -/
def SendData (m : Messenger Data) (packet : Data) : Messenger Data :=
  if !m.stop_messenger then
    m
  else
    { m with data := m.data ++ [packet], data_size := wrapInt64 (m.data_size + 1) }

/-- Wait predicate of `ReceiveData`, the lambda `[&] {return data_size > 0;}`. -/
def waitPredicate (m : Messenger Data) : Bool :=
  decide (0 < m.data_size)

/-- Lines 68 to 73 of `ReceiveData`, run by a caller that has passed the guard:
wait until `data_size > 0`, then copy `data.front()` into `*packet`, pop it and
decrement `data_size`.  The caller object is `p` on entry. -/
def ReceiveData.afterGuard (m : Messenger Data) (_p : Data) : ReceiveResult Data :=
  if waitPredicate m then
    match m.data with
    | [] => ReceiveResult.undefinedFront
    | front :: rest =>
        ReceiveResult.returned
          { m with data := rest, data_size := wrapInt64 (m.data_size - 1) } front
  else
    ReceiveResult.blocked

/-- Member `void ReceiveData(Data *packet)`, called with `packet` pointing to
an object holding `p`.  When `!stop_messenger.load()` the parameter `packet`
is set to `nullptr` (the caller object is not written) and the call returns;
otherwise the call goes on to the wait. -/
def ReceiveData (m : Messenger Data) (p : Data) : ReceiveResult Data :=
  if !m.stop_messenger then
    ReceiveResult.returned m p
  else
    ReceiveData.afterGuard m p

/-- Member `void Stop()`: `stop_messenger.store(true)`, nothing else. -/
def Stop (m : Messenger Data) : Messenger Data :=
  { m with stop_messenger := true }

/-- Member `void Start()`: `stop_messenger.store(false)`, nothing else. -/
def Start (m : Messenger Data) : Messenger Data :=
  { m with stop_messenger := false }

/-- Calls `SendData` on the packets of `xs`, first to last. -/
def sendAll (m : Messenger Data) (xs : List Data) : Messenger Data :=
  xs.foldl SendData m

/-- Result of a run of consecutive `ReceiveData` calls. -/
inductive DrainResult (Data : Type) where
  | returned (m : Messenger Data) (seen : List Data)
  | blocked
  | undefinedFront
deriving DecidableEq, Repr

/-- Calls `ReceiveData(&p)` `n` times on the same caller object, which holds
`p` at first; `seen` lists what the object holds after each call. -/
def receiveMany (m : Messenger Data) : Nat → Data → DrainResult Data
  | 0, _ => DrainResult.returned m []
  | n + 1, p =>
    match ReceiveData m p with
    | ReceiveResult.returned m1 p1 =>
      match receiveMany m1 n p1 with
      | DrainResult.returned m2 seen => DrainResult.returned m2 (p1 :: seen)
      | DrainResult.blocked => DrainResult.blocked
      | DrainResult.undefinedFront => DrainResult.undefinedFront
    | ReceiveResult.blocked => DrainResult.blocked
    | ReceiveResult.undefinedFront => DrainResult.undefinedFront

/-- States that a freshly constructed messenger can be brought into by calls of
`SendData`, `Stop`, `Start` and of `ReceiveData` that return. -/
inductive Reachable : Messenger Data → Prop where
  | fresh : Reachable new
  | send (m : Messenger Data) (x : Data) : Reachable m → Reachable (m.SendData x)
  | receive (m m1 : Messenger Data) (p p1 : Data) :
      Reachable m → m.ReceiveData p = ReceiveResult.returned m1 p1 → Reachable m1
  | stop (m : Messenger Data) : Reachable m → Reachable m.Stop
  | start (m : Messenger Data) : Reachable m → Reachable m.Start

end Messenger

/-- One call of a member function of `Messenger<Data>`.  `ReceiveData p` is
`ReceiveData(&obj)` where the caller object `obj` holds `p` when the call is
made. -/
inductive Call (Data : Type) where
  | SendData (packet : Data)
  | ReceiveData (p : Data)
  | Stop
  | Start
deriving DecidableEq, Repr

namespace Messenger

variable {Data : Type}

/-- Runs a sequence of calls, first to last, on the messenger `m`.  `seen`
lists, for each `ReceiveData` call in order, what its caller object holds when
the call has returned; a call that waits or reads the front of an empty queue
ends the run with that outcome. -/
def runCalls (m : Messenger Data) : List (Call Data) → DrainResult Data
  | [] => DrainResult.returned m []
  | Call.SendData packet :: cs => runCalls (m.SendData packet) cs
  | Call.ReceiveData p :: cs =>
    match m.ReceiveData p with
    | ReceiveResult.returned m1 p1 =>
      match runCalls m1 cs with
      | DrainResult.returned m2 seen => DrainResult.returned m2 (p1 :: seen)
      | DrainResult.blocked => DrainResult.blocked
      | DrainResult.undefinedFront => DrainResult.undefinedFront
    | ReceiveResult.blocked => DrainResult.blocked
    | ReceiveResult.undefinedFront => DrainResult.undefinedFront
  | Call.Stop :: cs => runCalls m.Stop cs
  | Call.Start :: cs => runCalls m.Start cs

/-- Values that the caller objects of the `ReceiveData` calls of a sequence hold
before their call, in order. -/
def callerValues : List (Call Data) → List Data
  | [] => []
  | Call.ReceiveData p :: cs => p :: callerValues cs
  | _ :: cs => callerValues cs

/-- Whether a sequence of calls has no `Stop()` in it. -/
def hasNoStop : List (Call Data) → Bool
  | [] => true
  | Call.Stop :: _ => false
  | _ :: cs => hasNoStop cs

end Messenger
end traffic_manager

namespace road
namespace element

/-- Modelled from the spec: the struct `Waypoint` of `carla/road/element/Waypoint.h`,
which is not among the sources.  A road position is `road_id` and `section_id`
(unsigned integers), `lane_id` (signed integer) and the longitudinal offset `s`,
taken as an exact rational. -/
structure Waypoint where
  road_id : Nat
  section_id : Nat
  lane_id : Int
  s : ℚ
deriving DecidableEq

/-- The four instances of the library template `boost::hash_combine(size_t &, const T &)`
that the hash operator uses; each maps the old seed and the value to the new
seed.  `combineFloat seed z` stands for `hash_combine(seed, static_cast<float>(z))`
at the integral value `z`. -/
structure HashCombine where
  combineRoadId : Nat → Nat → Nat
  combineSectionId : Nat → Nat → Nat
  combineLaneId : Nat → Int → Nat
  combineFloat : Nat → Int → Nat

/-- Bucket index `std::floor(waypoint.s * 200.0)` of an offset. -/
def quantize (s : ℚ) : Int :=
  Int.floor (s * 200)

/-- Body of `std::hash<Waypoint>::operator()` up to the `return`: the values of
the locals `(seed, seedt)` after the four `hash_combine` calls, all of which
take `seedt` by reference. -/
def hashLocals (hc : HashCombine) (waypoint : Waypoint) : Nat × Nat :=
  let seed : Nat := 0
  let seedt : Nat := seed
  let seedt := hc.combineRoadId seedt waypoint.road_id
  let seedt := hc.combineSectionId seedt waypoint.section_id
  let seedt := hc.combineLaneId seedt waypoint.lane_id
  let seedt := hc.combineFloat seedt (quantize waypoint.s)
  (seed, seedt)

/-- Operator `std::hash<Waypoint>::operator()(const Waypoint &)`: its last
statement is `return seed;`. -/
def WaypointHash (hc : HashCombine) (waypoint : Waypoint) : Nat :=
  (hashLocals hc waypoint).1

/-- An instance of the `hash_combine` parameters, used to evaluate the hash on
concrete waypoints: the classic `seed ^ (v + 0x9e3779b9 + (seed << 6) + (seed >> 2))`
on 64 bits, with a signed value taken modulo `2^64`. -/
def sampleCombine : HashCombine :=
  let mix : Nat → Nat → Nat := fun seed v =>
    Nat.xor seed ((v + 2654435769 + seed * 64 + seed / 4) % 18446744073709551616)
  { combineRoadId := mix
    combineSectionId := mix
    combineLaneId := fun seed v => mix seed (v % 18446744073709551616).toNat
    combineFloat := fun seed v => mix seed (v % 18446744073709551616).toNat }

end element
end road
end carla

/-! ## Lemmas on the counter and on runs of calls -/

namespace carla
namespace traffic_manager

theorem wrapInt64_wrap_add (a b : Int) :
    wrapInt64 (wrapInt64 a + b) = wrapInt64 (a + b) := by
  unfold wrapInt64; omega

theorem wrapInt64_of_small (n : Nat) (h : n < 9223372036854775808) :
    wrapInt64 (n : Int) = (n : Int) := by
  unfold wrapInt64; omega

namespace Messenger

variable {Data : Type}

theorem sendAll_running (q : List Data) (n : Int) (xs : List Data) :
    sendAll ⟨false, q, n⟩ xs = ⟨false, q, n⟩ := by
  induction xs with
  | nil => rfl
  | cons x xs ih => simpa [sendAll, SendData] using ih

theorem receiveMany_running (q : List Data) (n : Int) (k : Nat) (p : Data) :
    receiveMany ⟨false, q, n⟩ k p
      = DrainResult.returned ⟨false, q, n⟩ (List.replicate k p) := by
  induction k with
  | zero => rfl
  | succ k ih => simp [receiveMany, ReceiveData, ih, List.replicate_succ]

/-- Every reachable state has `data_size` equal to the wrapped queue length. -/
theorem Reachable.data_size_eq_wrap {m : Messenger Data} (h : Reachable m) :
    m.data_size = wrapInt64 (m.data.length : Int) := by
  induction h with
  | fresh => simp [new, wrapInt64]
  | send m x _ ih =>
    unfold SendData
    cases hs : m.stop_messenger with
    | false => simpa using ih
    | true =>
      simp only [Bool.not_true, Bool.false_eq_true, if_false, List.length_append,
        List.length_singleton, Nat.cast_add, Nat.cast_one]
      rw [ih, wrapInt64_wrap_add]
  | receive m m1 p p1 _ hr ih =>
    unfold ReceiveData at hr
    cases hs : m.stop_messenger with
    | false =>
      simp only [hs, Bool.not_false, if_true, ReceiveResult.returned.injEq] at hr
      rw [← hr.1]; exact ih
    | true =>
      simp only [hs, Bool.not_true, Bool.false_eq_true, if_false,
        ReceiveData.afterGuard] at hr
      split at hr
      · cases hd : m.data with
        | nil => simp [hd] at hr
        | cons front rest =>
          simp only [hd, ReceiveResult.returned.injEq] at hr
          rw [← hr.1]
          simp only
          rw [ih, hd, List.length_cons, Nat.cast_add, Nat.cast_one]
          unfold wrapInt64; omega
      · simp at hr
  | stop m _ ih => simpa [Stop] using ih
  | start m _ ih => simpa [Start] using ih

end Messenger
end traffic_manager
end carla

/-! ## Messenger: the claims -/

namespace carla
namespace traffic_manager
namespace Messenger

variable {Data : Type}

/-- Claim C1, evaluated on the code: on a freshly constructed messenger
`SendData(x)` followed by `ReceiveData(&p)` returns without blocking, but the
messenger is still the fresh one and the caller object still holds its old
value `p`, not `x`: both calls leave through the guard `!stop_messenger.load()`. -/
theorem fresh_send_receive_keeps_caller_value (x p : Data) :
    ReceiveData (SendData (new : Messenger Data) x) p
      = ReceiveResult.returned new p := by
  simp [new, SendData, ReceiveData]

/-- Claim C2, evaluated on the code: on the messenger as constructed, sending
`xs` in order and then receiving `xs.length` times returns every time with the
caller object unchanged, so the values seen are `p, ..., p` and not `xs`; the
queue stays empty. -/
theorem fresh_sendAll_receiveMany_keeps_caller_value (xs : List Data) (p : Data) :
    receiveMany (sendAll (new : Messenger Data) xs) xs.length p
      = DrainResult.returned new (List.replicate xs.length p) := by
  unfold new
  rw [sendAll_running, receiveMany_running]

/-- Claim C3, evaluated on the code: with `stop_messenger = false` (Running)
`SendData` changes nothing, and with `stop_messenger = true` (Stopped) it
appends the packet at the back and increments `data_size`: the reverse of the
claim. -/
theorem SendData_enqueues_only_when_stopped (q : List Data) (n : Int) (x : Data) :
    SendData ⟨false, q, n⟩ x = ⟨false, q, n⟩ ∧
    SendData ⟨true, q, n⟩ x = ⟨true, q ++ [x], wrapInt64 (n + 1)⟩ := by
  simp [SendData]

/-- Claim C4, evaluated on the code: on a stopped messenger holding `[7, 8]`
`ReceiveData` writes the front packet `7` into the caller object, pops it and
decrements `data_size`; on a stopped messenger with an empty queue it blocks. -/
theorem ReceiveData_stopped_delivers_or_blocks :
    ReceiveData (⟨true, [7, 8], 2⟩ : Messenger Nat) 0
      = ReceiveResult.returned ⟨true, [8], 1⟩ 7 ∧
    ReceiveData (⟨true, [], 0⟩ : Messenger Nat) 0 = ReceiveResult.blocked := by
  decide

/-- Claim C5: from every state `Stop()` yields `stop_messenger = true` and
`Start()` yields `stop_messenger = false`; both keep the queue and `data_size`
as they were, and so does `Start()` after `Stop()`. -/
theorem Stop_Start_set_flag_keep_queue (m : Messenger Data) :
    m.Stop.stop_messenger = true ∧ m.Start.stop_messenger = false ∧
    m.Stop.data = m.data ∧ m.Stop.data_size = m.data_size ∧
    m.Start.data = m.data ∧ m.Start.data_size = m.data_size ∧
    m.Stop.Start.data = m.data ∧ m.Stop.Start.data_size = m.data_size ∧
    m.Stop.Start.stop_messenger = false :=
  ⟨rfl, rfl, rfl, rfl, rfl, rfl, rfl, rfl, rfl⟩

/-- Claim C6, evaluated on the code: `Stop()` leaves the wait predicate of every
state as it was, so a receiver waiting on the empty queue with `data_size = 0`
is still blocked after `Stop()`, and so is a call of `ReceiveData` made after
it. -/
theorem Stop_leaves_receiver_blocked (m : Messenger Data) (b : Bool) (p : Data) :
    waitPredicate m.Stop = waitPredicate m ∧
    ReceiveData.afterGuard (⟨b, [], 0⟩ : Messenger Data) p = ReceiveResult.blocked ∧
    ReceiveData.afterGuard (Stop (⟨b, [], 0⟩ : Messenger Data)) p
      = ReceiveResult.blocked ∧
    ReceiveData (Stop (⟨b, [], 0⟩ : Messenger Data)) p = ReceiveResult.blocked := by
  simp [Stop, waitPredicate, ReceiveData, ReceiveData.afterGuard]

/-- Claim C9: in every state reachable from a freshly constructed messenger by
`SendData`, returning `ReceiveData`, `Stop` and `Start` calls, whose queue is
within the range of the 64-bit counter (fewer than `2^63` packets), `data_size`
is the number of packets in the queue, hence not negative. -/
theorem Reachable_data_size_eq_length (m : Messenger Data) (h : Reachable m)
    (hcap : m.data.length < 9223372036854775808) :
    m.data_size = (m.data.length : Int) ∧ 0 ≤ m.data_size := by
  have hw := h.data_size_eq_wrap
  rw [wrapInt64_of_small _ hcap] at hw
  exact ⟨hw, by omega⟩

/-- Witness of C9 at the state reached by `Stop(); SendData(5); SendData(6);
ReceiveData(&p); Start()`. -/
theorem Reachable_data_size_eq_length_witness :
    Reachable (Start (⟨true, [6], 1⟩ : Messenger Nat)) ∧
    (Start (⟨true, [6], 1⟩ : Messenger Nat)).data.length < 9223372036854775808 ∧
    (Start (⟨true, [6], 1⟩ : Messenger Nat)).data_size
      = ((Start (⟨true, [6], 1⟩ : Messenger Nat)).data.length : Int) ∧
    0 ≤ (Start (⟨true, [6], 1⟩ : Messenger Nat)).data_size :=
  have hr : Reachable (Start (⟨true, [6], 1⟩ : Messenger Nat)) :=
    Reachable.start _
      (Reachable.receive (SendData (SendData (Stop new) 5) 6) _ 0 5
        (Reachable.send _ 6 (Reachable.send _ 5 (Reachable.stop _ Reachable.fresh)))
        (by decide))
  ⟨hr, by decide, Reachable_data_size_eq_length _ hr (by decide)⟩

/-- Claim C10: a newly constructed messenger has `stop_messenger = false`
(Running), an empty queue and `data_size = 0`. -/
theorem new_running_empty_zero (Data : Type) :
    (new : Messenger Data).stop_messenger = false ∧
    (new : Messenger Data).data = [] ∧
    (new : Messenger Data).data_size = 0 :=
  ⟨rfl, rfl, rfl⟩

end Messenger
end traffic_manager

/-! ## Waypoint hash: the claims -/

namespace road
namespace element

/-- The bucket index itself separates the offsets `0.0049` and `0.0051`, which
are `0.0002` apart. -/
theorem quantize_separates_close_offsets :
    |(49 / 10000 : ℚ) - 51 / 10000| < 1 / 200 ∧
    quantize (49 / 10000) = 0 ∧ quantize (51 / 10000) = 1 := by
  refine ⟨by norm_num [abs_lt], ?_, ?_⟩ <;>
    simp [quantize, Int.floor_eq_iff] <;> norm_num

/-- Claim C7: two waypoints with the same `road_id`, `section_id` and `lane_id`
whose offsets are less than `1/200` apart have the same hash. -/
theorem WaypointHash_eq_of_close_offsets (hc : HashCombine) (road_id section_id : Nat)
    (lane_id : Int) (s1 s2 : ℚ) (_h : |s1 - s2| < 1 / 200) :
    WaypointHash hc ⟨road_id, section_id, lane_id, s1⟩
      = WaypointHash hc ⟨road_id, section_id, lane_id, s2⟩ :=
  rfl

/-- Witness of C7 at road 5, section 2, lane -1 and the offsets `0.0049` and
`0.0051`. -/
theorem WaypointHash_eq_of_close_offsets_witness :
    |(49 / 10000 : ℚ) - 51 / 10000| < 1 / 200 ∧
    WaypointHash sampleCombine ⟨5, 2, -1, 49 / 10000⟩
      = WaypointHash sampleCombine ⟨5, 2, -1, 51 / 10000⟩ :=
  ⟨by norm_num [abs_lt],
    WaypointHash_eq_of_close_offsets sampleCombine 5 2 (-1) (49 / 10000) (51 / 10000)
      (by norm_num [abs_lt])⟩

/-- Claim C8, evaluated on the code: no two waypoints have different hashes,
whatever `hash_combine` computes; the returned `seed` does not depend on the
waypoint. -/
theorem WaypointHash_same_for_all (hc : HashCombine) (w1 w2 : Waypoint) :
    WaypointHash hc w1 = WaypointHash hc w2 :=
  rfl

end element
end road
end carla

/-! ## Lemmas on runs of calls in the two states of the flag -/

namespace carla
namespace traffic_manager
namespace Messenger

variable {Data : Type}

theorem runCalls_running (q : List Data) (n : Int) (calls : List (Call Data))
    (h : hasNoStop calls = true) :
    runCalls ⟨false, q, n⟩ calls
      = DrainResult.returned ⟨false, q, n⟩ (callerValues calls) := by
  induction calls with
  | nil => rfl
  | cons c cs ih =>
    cases c with
    | SendData packet =>
      simpa [runCalls, SendData, callerValues] using ih (by simpa [hasNoStop] using h)
    | ReceiveData p =>
      simp [runCalls, Messenger.ReceiveData, callerValues,
        ih (by simpa [hasNoStop] using h)]
    | Stop => simp [hasNoStop] at h
    | Start =>
      simpa [runCalls, Start, callerValues] using ih (by simpa [hasNoStop] using h)

theorem sendAll_stopped (q : List Data) (n : Int) (xs : List Data) :
    sendAll ⟨true, q, wrapInt64 n⟩ xs
      = ⟨true, q ++ xs, wrapInt64 (n + (xs.length : Int))⟩ := by
  induction xs generalizing q n with
  | nil => simp [sendAll]
  | cons x xs ih =>
    have hstep : sendAll ⟨true, q, wrapInt64 n⟩ (x :: xs)
        = sendAll ⟨true, q ++ [x], wrapInt64 (n + 1)⟩ xs := by
      simp [sendAll, SendData, wrapInt64_wrap_add]
    rw [hstep, ih]
    simp only [List.append_assoc, List.singleton_append, List.length_cons, Nat.cast_add,
      Nat.cast_one]
    congr 2
    omega

theorem receiveMany_stopped (q : List Data) (p : Data)
    (h : q.length < 9223372036854775808) :
    receiveMany ⟨true, q, (q.length : Int)⟩ q.length p
      = DrainResult.returned ⟨true, [], 0⟩ q := by
  induction q generalizing p with
  | nil => rfl
  | cons x rest ih =>
    have hlen : rest.length < 9223372036854775808 := by
      simp only [List.length_cons] at h; omega
    have hpos : (0 : Int) < (rest.length : Int) + 1 := by omega
    have hdec : wrapInt64 (rest.length : Int) = (rest.length : Int) :=
      wrapInt64_of_small _ hlen
    simp [receiveMany, Messenger.ReceiveData, ReceiveData.afterGuard, waitPredicate,
      hpos, hdec, ih x hlen]

end Messenger
end traffic_manager
end carla

/-! ## Messenger: behaviour of the code as written -/

namespace carla
namespace traffic_manager
namespace Messenger

variable {Data : Type}

/-- Claim C11: on a freshly constructed messenger every finite sequence of
`SendData`, `ReceiveData` and `Start` calls without a `Stop` runs to its end
and leaves the messenger as constructed (empty queue, `data_size = 0`), and
every `ReceiveData` call of it returns with its caller object holding what it
held before the call: no packet is delivered. -/
theorem fresh_without_Stop_is_noop (calls : List (Call Data))
    (h : hasNoStop calls = true) :
    runCalls (new : Messenger Data) calls
      = DrainResult.returned new (callerValues calls) ∧
    (new : Messenger Data).data = [] ∧ (new : Messenger Data).data_size = 0 :=
  ⟨runCalls_running [] 0 calls h, rfl, rfl⟩

/-- Witness of C11 at the sequence `SendData(1); ReceiveData(&p)` with `p = 0`;
`Start(); SendData(2); ReceiveData(&r)` with `r = 9`. -/
theorem fresh_without_Stop_is_noop_witness :
    hasNoStop [Call.SendData 1, Call.ReceiveData 0, Call.Start, Call.SendData 2,
      Call.ReceiveData (9 : Nat)] = true ∧
    (runCalls (new : Messenger Nat)
        [Call.SendData 1, Call.ReceiveData 0, Call.Start, Call.SendData 2,
          Call.ReceiveData 9]
      = DrainResult.returned new
          (callerValues [Call.SendData 1, Call.ReceiveData 0, Call.Start,
            Call.SendData 2, Call.ReceiveData (9 : Nat)]) ∧
    (new : Messenger Nat).data = [] ∧ (new : Messenger Nat).data_size = 0) :=
  ⟨by decide, fresh_without_Stop_is_noop _ (by decide)⟩

/-- Claim C13: from the state with `stop_messenger = true`, an empty queue and
`data_size = 0`, sending the packets `xs` in order (fewer than `2^63` of them,
the range of the 64-bit counter) and then calling `ReceiveData` `xs.length`
times never blocks, delivers exactly `xs` in the order sent, and ends with an
empty queue and `data_size = 0`. -/
theorem stopped_sendAll_receiveMany_fifo (xs : List Data) (p : Data)
    (h : xs.length < 9223372036854775808) :
    receiveMany (sendAll (⟨true, [], 0⟩ : Messenger Data) xs) xs.length p
      = DrainResult.returned ⟨true, [], 0⟩ xs := by
  have h0 : (0 : Int) = wrapInt64 0 := by simp [wrapInt64]
  have hs : sendAll (⟨true, [], 0⟩ : Messenger Data) xs
      = ⟨true, xs, (xs.length : Int)⟩ := by
    conv_lhs => rw [h0]
    rw [sendAll_stopped, zero_add, wrapInt64_of_small _ h, List.nil_append]
  rw [hs]
  exact receiveMany_stopped xs p h

/-- Witness of C13 at the packets `1, 2, 3` and a caller object holding `0`. -/
theorem stopped_sendAll_receiveMany_fifo_witness :
    [1, 2, 3].length < 9223372036854775808 ∧
    receiveMany (sendAll (⟨true, [], 0⟩ : Messenger Nat) [1, 2, 3]) [1, 2, 3].length 0
      = DrainResult.returned ⟨true, [], 0⟩ [1, 2, 3] :=
  ⟨by decide, stopped_sendAll_receiveMany_fifo [1, 2, 3] 0 (by decide)⟩

/-- Claim C14: in every state reachable from a freshly constructed messenger by
`SendData`, returning `ReceiveData`, `Stop` and `Start` calls in which the wait
predicate `data_size > 0` holds, the queue is not empty: the part of
`ReceiveData` after the wait takes the front packet of a non-empty queue, and
no call of `ReceiveData` reads the front of an empty queue. -/
theorem Reachable_wait_passed_queue_nonempty (m : Messenger Data) (h : Reachable m)
    (hw : waitPredicate m = true) :
    m.data ≠ [] ∧
    ∀ p : Data,
      (∃ front rest, m.data = front :: rest ∧
        ReceiveData.afterGuard m p
          = ReceiveResult.returned
              { m with data := rest, data_size := wrapInt64 (m.data_size - 1) } front) ∧
      ReceiveData m p ≠ ReceiveResult.undefinedFront := by
  have hinv := h.data_size_eq_wrap
  have hpos : 0 < m.data_size := by simpa [waitPredicate] using hw
  cases hd : m.data with
  | nil =>
    rw [hd] at hinv
    simp [wrapInt64] at hinv
    omega
  | cons front rest =>
    refine ⟨by simp, fun p => ⟨⟨front, rest, rfl, ?_⟩, ?_⟩⟩
    · simp [ReceiveData.afterGuard, hw, hd]
    · unfold ReceiveData
      cases hs : m.stop_messenger <;> simp [ReceiveData.afterGuard, hw, hd]

/-- Witness of C14 at the state reached by `Stop(); SendData(5); SendData(6);
SendData(7); ReceiveData(&p)`. -/
theorem Reachable_wait_passed_queue_nonempty_witness :
    Reachable (⟨true, [6, 7], 2⟩ : Messenger Nat) ∧
    waitPredicate (⟨true, [6, 7], 2⟩ : Messenger Nat) = true ∧
    (⟨true, [6, 7], 2⟩ : Messenger Nat).data ≠ [] :=
  have hr : Reachable (⟨true, [6, 7], 2⟩ : Messenger Nat) :=
    Reachable.receive (SendData (SendData (SendData (Stop new) 5) 6) 7) _ 0 5
      (Reachable.send _ 7
        (Reachable.send _ 6 (Reachable.send _ 5 (Reachable.stop _ Reachable.fresh))))
      (by decide)
  ⟨hr, by decide, (Reachable_wait_passed_queue_nonempty _ hr (by decide)).1⟩

/-- Claim C15: in every state with `stop_messenger = false`, `ReceiveData(&p)`
with `p = v` returns with `p` still equal to `v` and the messenger unchanged;
the assignment `packet = nullptr` writes only the parameter, so the caller sees
nothing that tells the early return from no call at all. -/
theorem ReceiveData_running_changes_nothing (m : Messenger Data) (v : Data)
    (h : m.stop_messenger = false) :
    ReceiveData m v = ReceiveResult.returned m v := by
  simp [ReceiveData, h]

/-- Witness of C15 at the state with `stop_messenger = false`, queue `[7, 8]`,
`data_size = 2` and a caller object holding `3`. -/
theorem ReceiveData_running_changes_nothing_witness :
    (⟨false, [7, 8], 2⟩ : Messenger Nat).stop_messenger = false ∧
    ReceiveData (⟨false, [7, 8], 2⟩ : Messenger Nat) 3
      = ReceiveResult.returned ⟨false, [7, 8], 2⟩ 3 :=
  ⟨rfl, ReceiveData_running_changes_nothing _ 3 rfl⟩

end Messenger
end traffic_manager

/-! ## Waypoint hash: behaviour of the code as written -/

namespace road
namespace element

/-- Claim C12: for every waypoint the hash operator returns `0`: the four
`hash_combine` calls leave their result in the local `seedt`, and the returned
local `seed` is still `0`. -/
theorem WaypointHash_eq_zero (hc : HashCombine) (w : Waypoint) :
    WaypointHash hc w = 0 ∧
    (hashLocals hc w).1 = 0 ∧
    (hashLocals hc w).2
      = hc.combineFloat
          (hc.combineLaneId
            (hc.combineSectionId (hc.combineRoadId 0 w.road_id) w.section_id)
            w.lane_id)
          (quantize w.s) :=
  ⟨rfl, rfl, rfl⟩

end element
end road
end carla
